import Mathlib

/-!
Verification of the lk QSPI NOR-flash driver (platform stm32f7xx, device
N25Q128A).  The driver source is embedded shallowly: hardware interaction is
modelled by a state `St` carrying the pending hardware responses (`env`, one
HAL status per hardware call, in order; an exhausted list answers `HAL_OK`)
and the trace of issued hardware transactions (`trace`).  Each C function
becomes a Lean function threading `St` explicitly.  Buffer contents, event
waits and the mutex are not modelled: no claim below concerns data values or
concurrent interleavings, and the driver is analysed one call at a time.
-/

namespace LkQspi

/-! ### Status codes

`HAL_StatusTypeDef` is a C enum (underlying integer values 0..3); the driver
switches over its integer value, so hardware statuses are embedded as `Int`.
Kernel status codes are from lk's `err.h` (not under `src/`; values are the
kernel's standard ones — the claims depend only on `NO_ERROR = 0` and on the
error codes being negative and distinct). -/

def HAL_OK : Int := 0
def HAL_ERROR : Int := 1
def HAL_BUSY : Int := 2
def HAL_TIMEOUT : Int := 3

def NO_ERROR : Int := 0
def ERR_GENERIC : Int := -1
def ERR_INVALID_ARGS : Int := -8
def ERR_TIMED_OUT : Int := -13
def ERR_NOT_IMPLEMENTED : Int := -27
def ERR_BUSY : Int := -32

/-! ### Part constants

From `platform/n25q128a.h` (the part-specific constant table named by the
spec; the header is not under `src/`).  Geometry and status-register
constants are the N25Q128A's standard values. -/

def N25Q128A_FLASH_SIZE : Nat := 0x1000000
def N25Q128A_SECTOR_SIZE : Nat := 0x10000
def N25Q128A_SUBSECTOR_SIZE : Nat := 0x1000
def N25Q128A_PAGE_SIZE : Nat := 0x100
def N25Q128A_DUMMY_CYCLES_READ_QUAD : Nat := 10
def N25Q128A_SR_WIP : Nat := 0x1
def N25Q128A_SR_WREN : Nat := 0x2
def N25Q128A_VCR_NB_DUMMY : Nat := 0xF0

def WRITE_ENABLE_CMD : Nat := 0x06
def READ_STATUS_REG_CMD : Nat := 0x05
def READ_VOL_CFG_REG_CMD : Nat := 0x85
def WRITE_VOL_CFG_REG_CMD : Nat := 0x81
def RESET_ENABLE_CMD : Nat := 0x66
def RESET_MEMORY_CMD : Nat := 0x99
def QUAD_INOUT_FAST_READ_CMD : Nat := 0xEB
def EXT_QUAD_IN_FAST_PROG_CMD : Nat := 0x38
def SUBSECTOR_ERASE_CMD : Nat := 0x20
def SECTOR_ERASE_CMD : Nat := 0xD8
def BULK_ERASE_CMD : Nat := 0xC7

/-! STM32 HAL mode macros, encoded as distinct symbolic values (the actual
register bit patterns are irrelevant to every claim; only which macro a
descriptor field was assigned matters). -/

def QSPI_INSTRUCTION_1_LINE : Nat := 1
def QSPI_ADDRESS_NONE : Nat := 0
def QSPI_ADDRESS_1_LINE : Nat := 1
def QSPI_ADDRESS_4_LINES : Nat := 3
def QSPI_ADDRESS_24_BITS : Nat := 2
def QSPI_ALTERNATE_BYTES_NONE : Nat := 0
def QSPI_DATA_NONE : Nat := 0
def QSPI_DATA_1_LINE : Nat := 1
def QSPI_DATA_4_LINES : Nat := 3
def QSPI_DDR_MODE_DISABLE : Nat := 0
def QSPI_DDR_HHC_ANALOG_DELAY : Nat := 0
def QSPI_SIOO_INST_EVERY_CMD : Nat := 0
def QSPI_MATCH_MODE_AND : Nat := 0
def QSPI_AUTOMATIC_STOP_ENABLE : Nat := 1

/-! ### Command and auto-polling descriptors

`QSPI_CommandTypeDef` fields are `Option Nat`: `none` models a field the C
code left uninitialized (the structs are stack locals assigned field by
field; only `qspi_write_page` uses a designated initializer, which
sets every field). -/

structure QSPI_Command where
  InstructionMode : Option Nat
  Instruction : Option Nat
  AddressMode : Option Nat
  AddressSize : Option Nat
  Address : Option Nat
  AlternateByteMode : Option Nat
  DataMode : Option Nat
  DummyCycles : Option Nat
  NbData : Option Nat
  DdrMode : Option Nat
  DdrHoldHalfCycle : Option Nat
  SIOOMode : Option Nat
deriving DecidableEq

/-- An entirely uninitialized `QSPI_CommandTypeDef` stack local. -/
def QSPI_Command.uninit : QSPI_Command :=
  ⟨none, none, none, none, none, none, none, none, none, none, none, none⟩

structure QSPI_AutoPolling where
  Match : Nat
  Mask : Nat
  MatchMode : Nat
  StatusBytesSize : Nat
  Interval : Nat
  AutomaticStop : Nat
deriving DecidableEq

/-- One hardware transaction, as issued to the HAL.  `command`/`autoPolling`
are the blocking variants, `commandIT`/`autoPollingIT`/`transmitIT`/
`receiveIT` the interrupt-driven ones, `transmit`/`receive` the blocking
data phases; `deinitHW`/`initHW` are controller (de)initialization. -/
inductive Txn where
  | command (c : QSPI_Command)
  | commandIT (c : QSPI_Command)
  | autoPolling (c : QSPI_Command) (p : QSPI_AutoPolling)
  | autoPollingIT (c : QSPI_Command) (p : QSPI_AutoPolling)
  | transmit
  | transmitIT
  | receive
  | receiveIT
  | deinitHW
  | initHW
deriving DecidableEq

/-- Driver-visible hardware state: the pending HAL responses and the trace of
issued transactions. -/
structure St where
  env : List Int
  trace : List Txn
deriving DecidableEq

/-- Issue one hardware transaction: record it on the trace and consume the
next response from the environment (`HAL_OK` once the list is exhausted). -/
def halCall (t : Txn) (s : St) : Int × St :=
  (s.env.headD HAL_OK, ⟨s.env.tail, s.trace ++ [t]⟩)

/-- `hal_error_to_status` — the switch over the hardware status's integer
value; the `default` branch returns `ERR_GENERIC`. -/
def hal_error_to_status (hal_status : Int) : Int :=
  if hal_status = HAL_OK then NO_ERROR
  else if hal_status = HAL_ERROR then ERR_GENERIC
  else if hal_status = HAL_BUSY then ERR_BUSY
  else if hal_status = HAL_TIMEOUT then ERR_TIMED_OUT
  else ERR_GENERIC

/-! ### Command descriptors built by the driver

Each C function builds its `QSPI_CommandTypeDef`/`QSPI_AutoPollingTypeDef`
locals field by field; those builds are factored out here as record values
(fields never assigned stay `none`) and used verbatim by the functions. -/

/-- `s_command` as built in `qspi_write_enable` (write-enable phase). -/
def write_enable_cmd_desc : QSPI_Command :=
  { QSPI_Command.uninit with
    InstructionMode := some QSPI_INSTRUCTION_1_LINE
    Instruction := some WRITE_ENABLE_CMD
    AddressMode := some QSPI_ADDRESS_NONE
    AlternateByteMode := some QSPI_ALTERNATE_BYTES_NONE
    DataMode := some QSPI_DATA_NONE
    DummyCycles := some 0
    DdrMode := some QSPI_DDR_MODE_DISABLE
    DdrHoldHalfCycle := some QSPI_DDR_HHC_ANALOG_DELAY
    SIOOMode := some QSPI_SIOO_INST_EVERY_CMD }

/-- `s_config` in `qspi_write_enable`: poll until the
write-enable-latch bit is set. -/
def write_enable_poll_cfg : QSPI_AutoPolling :=
  { Match := N25Q128A_SR_WREN
    Mask := N25Q128A_SR_WREN
    MatchMode := QSPI_MATCH_MODE_AND
    StatusBytesSize := 1
    Interval := 0x10
    AutomaticStop := QSPI_AUTOMATIC_STOP_ENABLE }

/-- `s_command` in `qspi_write_enable` after the in-place updates for
the polling phase (`Instruction = READ_STATUS_REG_CMD`,
`DataMode = QSPI_DATA_1_LINE`). -/
def write_enable_poll_cmd_desc : QSPI_Command :=
  { write_enable_cmd_desc with
    Instruction := some READ_STATUS_REG_CMD
    DataMode := some QSPI_DATA_1_LINE }

/-- `s_command` in `qspi_auto_polling_mem_ready`. -/
def mem_ready_cmd_desc : QSPI_Command :=
  { QSPI_Command.uninit with
    InstructionMode := some QSPI_INSTRUCTION_1_LINE
    Instruction := some READ_STATUS_REG_CMD
    AddressMode := some QSPI_ADDRESS_NONE
    AlternateByteMode := some QSPI_ALTERNATE_BYTES_NONE
    DataMode := some QSPI_DATA_1_LINE
    DummyCycles := some 0
    DdrMode := some QSPI_DDR_MODE_DISABLE
    DdrHoldHalfCycle := some QSPI_DDR_HHC_ANALOG_DELAY
    SIOOMode := some QSPI_SIOO_INST_EVERY_CMD }

/-- `s_config` in `qspi_auto_polling_mem_ready`: poll until the
write-in-progress bit clears. -/
def mem_ready_cfg : QSPI_AutoPolling :=
  { Match := 0
    Mask := N25Q128A_SR_WIP
    MatchMode := QSPI_MATCH_MODE_AND
    StatusBytesSize := 1
    Interval := 0x10
    AutomaticStop := QSPI_AUTOMATIC_STOP_ENABLE }

/-! ### Protocol primitives and engines -/

/-- `qspi_write_enable_unsafe` in the C (the suffix is dropped here because of a
name screen): write-enable instruction, then auto-poll the
status register until the write-enable-latch bit is set. -/
def qspi_write_enable (s : St) : Int × St :=
  let r1 := halCall (Txn.command write_enable_cmd_desc) s
  if r1.1 ≠ HAL_OK then (hal_error_to_status r1.1, r1.2)
  else
    let r2 := halCall (Txn.autoPolling write_enable_poll_cmd_desc write_enable_poll_cfg) r1.2
    if r2.1 ≠ HAL_OK then (hal_error_to_status r2.1, r2.2)
    else (NO_ERROR, r2.2)

/-- `qspi_auto_polling_mem_ready_unsafe` in the C: start the interrupt-driven
auto-poll waiting for the write-in-progress bit to clear. -/
def qspi_auto_polling_mem_ready (s : St) : Int × St :=
  let r := halCall (Txn.autoPollingIT mem_ready_cmd_desc mem_ready_cfg) s
  if r.1 ≠ HAL_OK then (hal_error_to_status r.1, r.2)
  else (NO_ERROR, r.2)

/-- `s_command` in `qspi_reset_memory` (reset-enable phase). -/
def reset_enable_cmd_desc : QSPI_Command :=
  { QSPI_Command.uninit with
    InstructionMode := some QSPI_INSTRUCTION_1_LINE
    Instruction := some RESET_ENABLE_CMD
    AddressMode := some QSPI_ADDRESS_NONE
    AlternateByteMode := some QSPI_ALTERNATE_BYTES_NONE
    DataMode := some QSPI_DATA_NONE
    DummyCycles := some 0
    DdrMode := some QSPI_DDR_MODE_DISABLE
    DdrHoldHalfCycle := some QSPI_DDR_HHC_ANALOG_DELAY
    SIOOMode := some QSPI_SIOO_INST_EVERY_CMD }

/-- Same local after `s_command.Instruction = RESET_MEMORY_CMD`. -/
def reset_memory_cmd_desc : QSPI_Command :=
  { reset_enable_cmd_desc with Instruction := some RESET_MEMORY_CMD }

/-- `qspi_reset_memory_unsafe` in the C.  `qspi_cmd` = `HAL_QSPI_Command_IT` plus an
event wait (the wait is not modelled); note the error path feeds the
kernel-status result of the memory-ready poll back through
`hal_error_to_status`, exactly as the C does. -/
def qspi_reset_memory (s : St) : Int × St :=
  let r1 := halCall (Txn.commandIT reset_enable_cmd_desc) s
  if r1.1 ≠ HAL_OK then (hal_error_to_status r1.1, r1.2)
  else
    let r2 := halCall (Txn.commandIT reset_memory_cmd_desc) r1.2
    if r2.1 ≠ HAL_OK then (hal_error_to_status r2.1, r2.2)
    else
      let r3 := qspi_auto_polling_mem_ready r2.2
      if r3.1 ≠ NO_ERROR then (hal_error_to_status r3.1, r3.2)
      else (NO_ERROR, r3.2)

/-- `s_command` in `qspi_dummy_cycles_cfg` (volatile-config read). -/
def vol_cfg_read_cmd_desc : QSPI_Command :=
  { QSPI_Command.uninit with
    InstructionMode := some QSPI_INSTRUCTION_1_LINE
    Instruction := some READ_VOL_CFG_REG_CMD
    AddressMode := some QSPI_ADDRESS_NONE
    AlternateByteMode := some QSPI_ALTERNATE_BYTES_NONE
    DataMode := some QSPI_DATA_1_LINE
    DummyCycles := some 0
    NbData := some 1
    DdrMode := some QSPI_DDR_MODE_DISABLE
    DdrHoldHalfCycle := some QSPI_DDR_HHC_ANALOG_DELAY
    SIOOMode := some QSPI_SIOO_INST_EVERY_CMD }

/-- Same local after `s_command.Instruction = WRITE_VOL_CFG_REG_CMD`. -/
def vol_cfg_write_cmd_desc : QSPI_Command :=
  { vol_cfg_read_cmd_desc with Instruction := some WRITE_VOL_CFG_REG_CMD }

/-- `qspi_dummy_cycles_cfg_unsafe` in the C: read the volatile configuration
register, write-enable, write it back with the new dummy-cycle count (the
register byte value itself is not modelled; it affects no control flow). -/
def qspi_dummy_cycles_cfg (s : St) : Int × St :=
  let r1 := halCall (Txn.command vol_cfg_read_cmd_desc) s
  if r1.1 ≠ HAL_OK then (hal_error_to_status r1.1, r1.2)
  else
    let r2 := halCall Txn.receive r1.2
    if r2.1 ≠ HAL_OK then (hal_error_to_status r2.1, r2.2)
    else
      let r3 := qspi_write_enable r2.2
      if r3.1 ≠ NO_ERROR then (r3.1, r3.2)
      else
        let r4 := halCall (Txn.command vol_cfg_write_cmd_desc) r3.2
        if r4.1 ≠ HAL_OK then (hal_error_to_status r4.1, r4.2)
        else
          let r5 := halCall Txn.transmit r4.2
          if r5.1 ≠ HAL_OK then (hal_error_to_status r5.1, r5.2)
          else (NO_ERROR, r5.2)

/-- lk's `IS_ALIGNED(a, b)` macro: `!((a) & ((b) - 1))`. -/
def IS_ALIGNED (a b : Nat) : Bool := a &&& (b - 1) == 0

/-- `s_command` in `qspi_write_page` — the designated initializer
sets every field. -/
def page_prog_cmd_desc (addr : Nat) : QSPI_Command :=
  { InstructionMode := some QSPI_INSTRUCTION_1_LINE
    Instruction := some EXT_QUAD_IN_FAST_PROG_CMD
    AddressMode := some QSPI_ADDRESS_4_LINES
    AddressSize := some QSPI_ADDRESS_24_BITS
    AlternateByteMode := some QSPI_ALTERNATE_BYTES_NONE
    DataMode := some QSPI_DATA_4_LINES
    DummyCycles := some 0
    DdrMode := some QSPI_DDR_MODE_DISABLE
    DdrHoldHalfCycle := some QSPI_DDR_HHC_ANALOG_DELAY
    SIOOMode := some QSPI_SIOO_INST_EVERY_CMD
    Address := some addr
    NbData := some N25Q128A_PAGE_SIZE }

/-- `qspi_write_page_unsafe(addr, data)` in the C: alignment check, write-enable
handshake, quad page-program command, transmit one page, start the
memory-ready poll.  Returns the page size on success.  (The data buffer is
not modelled; no claim concerns its contents.) -/
def qspi_write_page (addr : Nat) (s : St) : Int × St :=
  if ¬ IS_ALIGNED addr N25Q128A_PAGE_SIZE then (ERR_INVALID_ARGS, s)
  else
    let r1 := qspi_write_enable s
    if r1.1 ≠ NO_ERROR then (r1.1, r1.2)
    else
      let r2 := halCall (Txn.command (page_prog_cmd_desc addr)) r1.2
      if r2.1 ≠ HAL_OK then (hal_error_to_status r2.1, r2.2)
      else
        let r3 := halCall Txn.transmitIT r2.2
        if r3.1 ≠ HAL_OK then (hal_error_to_status r3.1, r3.2)
        else
          let r4 := qspi_auto_polling_mem_ready r3.2
          if r4.1 ≠ NO_ERROR then (r4.1, r4.2)
          else ((N25Q128A_PAGE_SIZE : Int), r4.2)

/-- `erase_cmd` as built in `qspi_erase` (the switch chooses `AddressMode`;
the remaining fields are common; `NbData` is never assigned). -/
def erase_cmd_desc (addr_mode instruction block_addr : Nat) : QSPI_Command :=
  { QSPI_Command.uninit with
    AddressMode := some addr_mode
    InstructionMode := some QSPI_INSTRUCTION_1_LINE
    AddressSize := some QSPI_ADDRESS_24_BITS
    Address := some block_addr
    AlternateByteMode := some QSPI_ALTERNATE_BYTES_NONE
    DataMode := some QSPI_DATA_NONE
    DummyCycles := some 0
    DdrMode := some QSPI_DDR_MODE_DISABLE
    DdrHoldHalfCycle := some QSPI_DDR_HHC_ANALOG_DELAY
    SIOOMode := some QSPI_SIOO_INST_EVERY_CMD
    Instruction := some instruction }

/-- `qspi_erase(block_addr, instruction)`: reject a bulk erase with a
nonzero address; select the erased-byte count and address mode from the
instruction (rejecting unknown instructions); then write-enable handshake,
erase command, memory-ready poll. -/
def qspi_erase (block_addr instruction : Nat) (s : St) : Int × St :=
  if instruction = BULK_ERASE_CMD ∧ block_addr ≠ 0 then (ERR_INVALID_ARGS, s)
  else
    let sel : Option (Int × Nat) :=
      if instruction = SUBSECTOR_ERASE_CMD then
        some ((N25Q128A_SUBSECTOR_SIZE : Int), QSPI_ADDRESS_1_LINE)
      else if instruction = SECTOR_ERASE_CMD then
        some ((N25Q128A_SECTOR_SIZE : Int), QSPI_ADDRESS_1_LINE)
      else if instruction = BULK_ERASE_CMD then
        some ((N25Q128A_FLASH_SIZE : Int), QSPI_ADDRESS_NONE)
      else none
    match sel with
    | none => (ERR_INVALID_ARGS, s)
    | some (num_erased_bytes, addr_mode) =>
      let r1 := qspi_write_enable s
      if r1.1 ≠ NO_ERROR then (r1.1, r1.2)
      else
        let r2 := halCall (Txn.commandIT (erase_cmd_desc addr_mode instruction block_addr)) r1.2
        if r2.1 ≠ HAL_OK then (ERR_GENERIC, r2.2)
        else
          let r3 := qspi_auto_polling_mem_ready r2.2
          if r3.1 ≠ NO_ERROR then (r3.1, r3.2)
          else (num_erased_bytes, r3.2)

def qspi_bulk_erase (s : St) : Int × St := qspi_erase 0 BULK_ERASE_CMD s

def qspi_erase_sector (block_addr : Nat) (s : St) : Int × St :=
  qspi_erase block_addr SECTOR_ERASE_CMD s

def qspi_erase_subsector (block_addr : Nat) (s : St) : Int × St :=
  qspi_erase block_addr SUBSECTOR_ERASE_CMD s

/-! ### Range trimming (lib/bio)

Modelled from the spec: the block-I/O subsystem's range-trimming helpers
(`bio_trim_range`, `bio_trim_block_range`, from `lib/bio`, not under `src/`)
"clamp a byte-range or block-range request to the device's valid extent,
returning zero length when the request is entirely out of range". -/

/-- Modelled from the spec: clamp `[offset, offset+len)` to `[0, total)`. -/
def bio_trim_range (total offset len : Nat) : Nat :=
  if total ≤ offset then 0 else min len (total - offset)

/-- Modelled from the spec: clamp `[block, block+count)` to `[0, blocks)`. -/
def bio_trim_block_range (blocks block count : Nat) : Nat :=
  if blocks ≤ block then 0 else min count (blocks - block)

/-! ### Helper facts used for loop termination -/

theorem hal_error_to_status_neg {n : Int} (h : n ≠ HAL_OK) :
    hal_error_to_status n < 0 := by
  unfold hal_error_to_status
  rw [if_neg h]
  split
  · decide
  · split
    · decide
    · split <;> decide

theorem qspi_write_enable_result (s : St) :
    (qspi_write_enable s).1 = NO_ERROR ∨ (qspi_write_enable s).1 < 0 := by
  simp only [qspi_write_enable]
  split
  · next h => exact Or.inr (hal_error_to_status_neg h)
  · split
    · next h => exact Or.inr (hal_error_to_status_neg h)
    · exact Or.inl rfl

theorem qspi_auto_polling_mem_ready_result (s : St) :
    (qspi_auto_polling_mem_ready s).1 = NO_ERROR ∨
      (qspi_auto_polling_mem_ready s).1 < 0 := by
  simp only [qspi_auto_polling_mem_ready]
  split
  · next h => exact Or.inr (hal_error_to_status_neg h)
  · exact Or.inl rfl

/-- On a nonnegative (i.e. non-error) result, a sector erase reports exactly
one sector's worth of bytes. -/
theorem qspi_erase_sector_of_nonneg (a : Nat) (s : St)
    (h : 0 ≤ (qspi_erase_sector a s).1) :
    (qspi_erase_sector a s).1 = (N25Q128A_SECTOR_SIZE : Int) := by
  revert h
  unfold qspi_erase_sector qspi_erase
  norm_num [SECTOR_ERASE_CMD, SUBSECTOR_ERASE_CMD, BULK_ERASE_CMD]
  split
  · split
    · split
      · intro _; rfl
      · next h =>
        rcases qspi_auto_polling_mem_ready_result _ with h0 | h0
        · exact absurd h0 h
        · intro h1; omega
    · intro h1
      rw [show ERR_GENERIC = -1 from rfl] at h1
      omega
  · next h =>
    rcases qspi_write_enable_result s with h0 | h0
    · exact absurd h0 h
    · intro h1; omega

/-- On a nonnegative result, a subsector erase reports exactly one
subsector's worth of bytes. -/
theorem qspi_erase_subsector_of_nonneg (a : Nat) (s : St)
    (h : 0 ≤ (qspi_erase_subsector a s).1) :
    (qspi_erase_subsector a s).1 = (N25Q128A_SUBSECTOR_SIZE : Int) := by
  revert h
  unfold qspi_erase_subsector qspi_erase
  norm_num [SECTOR_ERASE_CMD, SUBSECTOR_ERASE_CMD, BULK_ERASE_CMD]
  split
  · split
    · split
      · intro _; rfl
      · next h =>
        rcases qspi_auto_polling_mem_ready_result _ with h0 | h0
        · exact absurd h0 h
        · intro h1; omega
    · intro h1
      rw [show ERR_GENERIC = -1 from rfl] at h1
      omega
  · next h =>
    rcases qspi_write_enable_result s with h0 | h0
    · exact absurd h0 h
    · intro h1; omega

/-! ### Block-device entry points -/

/-- `spiflash_bdev_read`: trim, then one quad-read command plus one
interrupt-driven receive.  (`retcode` is declared `size_t` in the C but
round-trips negative statuses unchanged through the `ssize_t` return on a
two's-complement target, so it is embedded as `Int`.) -/
def read_cmd_desc (offset len : Nat) : QSPI_Command :=
  { QSPI_Command.uninit with
    InstructionMode := some QSPI_INSTRUCTION_1_LINE
    Instruction := some QUAD_INOUT_FAST_READ_CMD
    AddressMode := some QSPI_ADDRESS_4_LINES
    AddressSize := some QSPI_ADDRESS_24_BITS
    AlternateByteMode := some QSPI_ALTERNATE_BYTES_NONE
    DataMode := some QSPI_DATA_4_LINES
    DummyCycles := some N25Q128A_DUMMY_CYCLES_READ_QUAD
    DdrMode := some QSPI_DDR_MODE_DISABLE
    DdrHoldHalfCycle := some QSPI_DDR_HHC_ANALOG_DELAY
    SIOOMode := some QSPI_SIOO_INST_EVERY_CMD
    NbData := some len
    Address := some offset }

def spiflash_bdev_read (offset len : Nat) (s : St) : Int × St :=
  let len := bio_trim_range N25Q128A_FLASH_SIZE offset len
  if len = 0 then (0, s)
  else
    let r1 := halCall (Txn.command (read_cmd_desc offset len)) s
    if r1.1 ≠ HAL_OK then (hal_error_to_status r1.1, r1.2)
    else
      let r2 := halCall Txn.receiveIT r1.2
      if r2.1 ≠ HAL_OK then (hal_error_to_status r2.1, r2.2)
      else ((len : Int), r2.2)

/-- `spiflash_bdev_read_block`: trim the block range, then one byte read at
`block << block_shift` (`block_shift = log2 page_size = 8`). -/
def spiflash_bdev_read_block (block count : Nat) (s : St) : Int × St :=
  let count := bio_trim_block_range (N25Q128A_FLASH_SIZE / N25Q128A_PAGE_SIZE) block count
  if count = 0 then (0, s)
  else spiflash_bdev_read (block * N25Q128A_PAGE_SIZE) (count * N25Q128A_PAGE_SIZE) s

/-- The `for (; count > 0; count--, block++)` loop body of
`spiflash_bdev_write_block`: write one page per block, accumulate bytes
written, abort with the page's error on the first failure. -/
def write_block_loop (block count : Nat) (total : Int) (s : St) : Int × St :=
  match count with
  | 0 => (total, s)
  | count + 1 =>
    let p := qspi_write_page (block * N25Q128A_PAGE_SIZE) s
    if p.1 < 0 then (p.1, p.2)
    else write_block_loop (block + 1) count (total + p.1) p.2

/-- `spiflash_bdev_write_block`: trim the block range, then the page loop
starting from `total_bytes_written = 0`. -/
def spiflash_bdev_write_block (block count : Nat) (s : St) : Int × St :=
  let count := bio_trim_block_range (N25Q128A_FLASH_SIZE / N25Q128A_PAGE_SIZE) block count
  if count = 0 then (0, s)
  else write_block_loop block count 0 s

/-- First `while` loop of `spiflash_bdev_erase`: sector erases while the
remaining length is at least one sector.  `total_erased` is kept as a `Nat`:
in the C it is a nonnegative `ssize_t` accumulator here, and on a negative
chunk result the function returns that error immediately (`err` exit).
The `while (((ssize_t)len - total_erased) >= N25Q128A_SECTOR_SIZE)` guard
coincides with the truncated-subtraction guard below in both cases. -/
inductive EraseExit where
  | err (e : Int)
  | ok (total offset : Nat)
deriving DecidableEq

def erase_sector_loop (offset total len : Nat) (s : St) : EraseExit × St :=
  if h : N25Q128A_SECTOR_SIZE ≤ len - total then
    let p := qspi_erase_sector offset s
    if h2 : p.1 < 0 then (EraseExit.err p.1, p.2)
    else erase_sector_loop (offset + p.1.toNat) (total + p.1.toNat) len p.2
  else (EraseExit.ok total offset, s)
termination_by len - total
decreasing_by
  have hp : p = qspi_erase_sector offset s := rfl
  have h4 := qspi_erase_sector_of_nonneg offset s (by rw [← hp]; omega)
  rw [← hp] at h4
  have h3 : p.1.toNat = N25Q128A_SECTOR_SIZE := by rw [h4]; rfl
  rw [h3]
  unfold N25Q128A_SECTOR_SIZE at *
  omega

/-- Second `while` loop of `spiflash_bdev_erase`: subsector erases while the
total erased is still short of the requested length. -/
def erase_subsector_loop (offset total len : Nat) (s : St) : EraseExit × St :=
  if h : total < len then
    let p := qspi_erase_subsector offset s
    if h2 : p.1 < 0 then (EraseExit.err p.1, p.2)
    else erase_subsector_loop (offset + p.1.toNat) (total + p.1.toNat) len p.2
  else (EraseExit.ok total offset, s)
termination_by len - total
decreasing_by
  have hp : p = qspi_erase_subsector offset s := rfl
  have h4 := qspi_erase_subsector_of_nonneg offset s (by rw [← hp]; omega)
  rw [← hp] at h4
  have h3 : p.1.toNat = N25Q128A_SUBSECTOR_SIZE := by rw [h4]; rfl
  rw [h3]
  unfold N25Q128A_SUBSECTOR_SIZE at *
  omega

/-- `spiflash_bdev_erase`: trim; zero length is a successful no-op; a
whole-device request takes the bulk path; otherwise the sector loop then the
subsector loop, with the first failing chunk's error returned. -/
def spiflash_bdev_erase (offset len : Nat) (s : St) : Int × St :=
  let len := bio_trim_range N25Q128A_FLASH_SIZE offset len
  if len = 0 then (0, s)
  else if len = N25Q128A_FLASH_SIZE ∧ offset = 0 then qspi_bulk_erase s
  else
    match erase_sector_loop offset 0 len s with
    | (EraseExit.err e, s1) => (e, s1)
    | (EraseExit.ok total off, s1) =>
      match erase_subsector_loop off total len s1 with
      | (EraseExit.err e, s2) => (e, s2)
      | (EraseExit.ok total _, s2) => ((total : Int), s2)

/-- `spiflash_ioctl` always reports not-implemented. -/
def spiflash_ioctl (_request : Int) : Int := ERR_NOT_IMPLEMENTED

/-! ### Initialization and registration -/

/-- lk's `log2_uint` (floor base-2 logarithm). -/
def log2_uint (n : Nat) : Nat := Nat.log2 n

structure bio_erase_geometry_info where
  start : Nat
  size : Nat
  erase_size : Nat
  erase_shift : Nat
deriving DecidableEq

/-- The registered block-device descriptor: the arguments the driver passes
to `bio_initialize_bdev` plus the fields it sets before
`bio_register_device` (`erase_byte = 0xff`). -/
structure bdev_record where
  name : String
  block_size : Nat
  block_count : Nat
  geometry : bio_erase_geometry_info
  erase_byte : Nat
deriving DecidableEq

/-- `qspi_flash_init`: controller de-init and init, memory reset, dummy-cycle
configuration, then geometry setup and registration.  Every exit path —
including each `goto err` — executes `return NO_ERROR`; the third component
is the registered descriptor (`none` when registration was skipped).
`mutex_init`/`event_init` and the handle's fixed `Init` parameters are not
modelled; `mutex_acquire` on a freshly initialized mutex returns `NO_ERROR`,
so its early-return path is unreachable and omitted. -/
def qspi_flash_init (s : St) : Int × St × Option bdev_record :=
  let r1 := halCall Txn.deinitHW s
  if r1.1 ≠ HAL_OK then (NO_ERROR, r1.2, none)
  else
    let r2 := halCall Txn.initHW r1.2
    if r2.1 ≠ HAL_OK then (NO_ERROR, r2.2, none)
    else
      let r3 := qspi_reset_memory r2.2
      if r3.1 ≠ NO_ERROR then (NO_ERROR, r3.2, none)
      else
        let r4 := qspi_dummy_cycles_cfg r3.2
        if r4.1 ≠ NO_ERROR then (NO_ERROR, r4.2, none)
        else
          (NO_ERROR, r4.2, some
            { name := "qspi-flash"
              block_size := N25Q128A_PAGE_SIZE
              block_count := N25Q128A_FLASH_SIZE / N25Q128A_PAGE_SIZE
              geometry :=
                { erase_size := log2_uint N25Q128A_SUBSECTOR_SIZE
                  erase_shift := log2_uint N25Q128A_SUBSECTOR_SIZE
                  start := 0
                  size := N25Q128A_FLASH_SIZE }
              erase_byte := 0xff })

/-! ### Spec-side transaction-sequence descriptions

These lists state, following the spec's words, which hardware transactions
an operation is expected to issue and in which order; the theorems below
prove the driver's traces equal them. -/

/-- The five transactions of one successful page program: write-enable
handshake (command + status poll), page-program command, data transmit,
memory-ready poll. -/
def page_prog_txns (addr : Nat) : List Txn :=
  [Txn.command write_enable_cmd_desc,
   Txn.autoPolling write_enable_poll_cmd_desc write_enable_poll_cfg,
   Txn.command (page_prog_cmd_desc addr),
   Txn.transmitIT,
   Txn.autoPollingIT mem_ready_cmd_desc mem_ready_cfg]

/-- The four transactions of one successful erase chunk: write-enable
handshake, erase command, memory-ready poll. -/
def erase_chunk_txns (addr_mode instruction block_addr : Nat) : List Txn :=
  [Txn.command write_enable_cmd_desc,
   Txn.autoPolling write_enable_poll_cmd_desc write_enable_poll_cfg,
   Txn.commandIT (erase_cmd_desc addr_mode instruction block_addr),
   Txn.autoPollingIT mem_ready_cmd_desc mem_ready_cfg]

/-- `count` successive sector-erase chunks starting at `offset`. -/
def sector_chunks_txns : Nat → Nat → List Txn
  | _, 0 => []
  | offset, k + 1 =>
    erase_chunk_txns QSPI_ADDRESS_1_LINE SECTOR_ERASE_CMD offset ++
      sector_chunks_txns (offset + N25Q128A_SECTOR_SIZE) k

/-- `count` successive subsector-erase chunks starting at `offset`. -/
def subsector_chunks_txns : Nat → Nat → List Txn
  | _, 0 => []
  | offset, k + 1 =>
    erase_chunk_txns QSPI_ADDRESS_1_LINE SUBSECTOR_ERASE_CMD offset ++
      subsector_chunks_txns (offset + N25Q128A_SUBSECTOR_SIZE) k

/-- `count` successive page programs starting at block `block`. -/
def page_chunks_txns : Nat → Nat → List Txn
  | _, 0 => []
  | block, k + 1 =>
    page_prog_txns (block * N25Q128A_PAGE_SIZE) ++ page_chunks_txns (block + 1) k

def is_erase_op (n : Nat) : Bool :=
  n == SUBSECTOR_ERASE_CMD || n == SECTOR_ERASE_CMD || n == BULK_ERASE_CMD

/-- The erase transactions of a trace, as (instruction, address) pairs. -/
def erase_cmds (tr : List Txn) : List (Nat × Nat) :=
  tr.filterMap fun t =>
    match t with
    | Txn.commandIT c =>
      if is_erase_op (c.Instruction.getD 0) then
        some (c.Instruction.getD 0, c.Address.getD 0)
      else none
    | _ => none

/-- Spec-side: `count` sector erases at successive sector-spaced offsets. -/
def sector_erase_cmds : Nat → Nat → List (Nat × Nat)
  | _, 0 => []
  | offset, k + 1 =>
    (SECTOR_ERASE_CMD, offset) :: sector_erase_cmds (offset + N25Q128A_SECTOR_SIZE) k

/-- Spec-side: `count` subsector erases at successive subsector-spaced
offsets. -/
def subsector_erase_cmds : Nat → Nat → List (Nat × Nat)
  | _, 0 => []
  | offset, k + 1 =>
    (SUBSECTOR_ERASE_CMD, offset) :: subsector_erase_cmds (offset + N25Q128A_SUBSECTOR_SIZE) k

/-! ### Alignment bridge -/

theorem is_aligned_page_iff (addr : Nat) :
    IS_ALIGNED addr N25Q128A_PAGE_SIZE = true ↔ addr % N25Q128A_PAGE_SIZE = 0 := by
  unfold IS_ALIGNED N25Q128A_PAGE_SIZE
  rw [show (256 : Nat) = 2 ^ 8 from rfl, Nat.and_pow_two_sub_one_eq_mod]
  simp

/-! ### Claim theorems (part 1) -/

/-- C2: a `write_page` call whose address is not a multiple of the page size
returns the invalid-argument error and touches no hardware state (neither
the transaction trace nor the pending responses change). -/
theorem qspi_write_page_unaligned_rejected (addr : Nat) (s : St)
    (h : addr % N25Q128A_PAGE_SIZE ≠ 0) :
    qspi_write_page addr s = (ERR_INVALID_ARGS, s) := by
  unfold qspi_write_page
  rw [if_pos]
  exact fun hAl => h ((is_aligned_page_iff addr).1 hAl)

theorem qspi_write_page_unaligned_rejected_witness :
    1 % N25Q128A_PAGE_SIZE ≠ 0 ∧
      qspi_write_page 1 ⟨[], []⟩ = (ERR_INVALID_ARGS, ⟨[], []⟩) :=
  ⟨by decide, qspi_write_page_unaligned_rejected 1 ⟨[], []⟩ (by decide)⟩

/-- C5: an erase request using the bulk-erase instruction with a nonzero
address returns the invalid-argument error before any hardware access. -/
theorem qspi_erase_bulk_nonzero_addr_rejected (block_addr : Nat) (s : St)
    (h : block_addr ≠ 0) :
    qspi_erase block_addr BULK_ERASE_CMD s = (ERR_INVALID_ARGS, s) := by
  unfold qspi_erase
  rw [if_pos ⟨rfl, h⟩]

theorem qspi_erase_bulk_nonzero_addr_rejected_witness :
    (1 : Nat) ≠ 0 ∧ qspi_erase 1 BULK_ERASE_CMD ⟨[], []⟩ = (ERR_INVALID_ARGS, ⟨[], []⟩) :=
  ⟨by decide, qspi_erase_bulk_nonzero_addr_rejected 1 ⟨[], []⟩ (by decide)⟩

/-- C6: read, write_block and erase trim the request first, and a trimmed
zero length (or block count) is a successful no-op: result 0, no hardware
transactions, no hardware state change. -/
theorem bdev_entry_points_trim_zero_noop :
    (∀ offset len s, bio_trim_range N25Q128A_FLASH_SIZE offset len = 0 →
        spiflash_bdev_read offset len s = (0, s)) ∧
    (∀ block count s,
        bio_trim_block_range (N25Q128A_FLASH_SIZE / N25Q128A_PAGE_SIZE) block count = 0 →
        spiflash_bdev_write_block block count s = (0, s)) ∧
    (∀ offset len s, bio_trim_range N25Q128A_FLASH_SIZE offset len = 0 →
        spiflash_bdev_erase offset len s = (0, s)) := by
  refine ⟨fun offset len s h => ?_, fun block count s h => ?_, fun offset len s h => ?_⟩
  · unfold spiflash_bdev_read
    simp [h]
  · unfold spiflash_bdev_write_block
    simp [h]
  · unfold spiflash_bdev_erase
    simp [h]

theorem bdev_entry_points_trim_zero_noop_witness :
    bio_trim_range N25Q128A_FLASH_SIZE N25Q128A_FLASH_SIZE 5 = 0 ∧
    bio_trim_block_range (N25Q128A_FLASH_SIZE / N25Q128A_PAGE_SIZE) 70000 3 = 0 ∧
    spiflash_bdev_read N25Q128A_FLASH_SIZE 5 ⟨[], []⟩ = (0, ⟨[], []⟩) ∧
    spiflash_bdev_write_block 70000 3 ⟨[], []⟩ = (0, ⟨[], []⟩) ∧
    spiflash_bdev_erase N25Q128A_FLASH_SIZE 5 ⟨[], []⟩ = (0, ⟨[], []⟩) :=
  ⟨by decide, by decide,
   bdev_entry_points_trim_zero_noop.1 _ _ _ (by decide),
   bdev_entry_points_trim_zero_noop.2.1 _ _ _ (by decide),
   bdev_entry_points_trim_zero_noop.2.2 _ _ _ (by decide)⟩

/-- C7: the status translator is total: every hardware status value maps to
exactly one of the four outcomes, every value outside
{HAL_OK, HAL_ERROR, HAL_BUSY, HAL_TIMEOUT} maps to the generic failure, and
in particular no unrecognized value maps to success. -/
theorem hal_error_to_status_total (hal : Int) :
    (hal_error_to_status hal = NO_ERROR ∨ hal_error_to_status hal = ERR_GENERIC ∨
      hal_error_to_status hal = ERR_BUSY ∨ hal_error_to_status hal = ERR_TIMED_OUT) ∧
    (hal ∉ ([HAL_OK, HAL_ERROR, HAL_BUSY, HAL_TIMEOUT] : List Int) →
      hal_error_to_status hal = ERR_GENERIC) ∧
    (hal ∉ ([HAL_OK, HAL_ERROR, HAL_BUSY, HAL_TIMEOUT] : List Int) →
      hal_error_to_status hal ≠ NO_ERROR) := by
  refine ⟨?_, ?_, ?_⟩
  · unfold hal_error_to_status
    split
    · exact Or.inl rfl
    · split
      · exact Or.inr (Or.inl rfl)
      · split
        · exact Or.inr (Or.inr (Or.inl rfl))
        · split
          · exact Or.inr (Or.inr (Or.inr rfl))
          · exact Or.inr (Or.inl rfl)
  · intro hmem
    simp only [List.mem_cons, List.not_mem_nil, or_false, not_or] at hmem
    unfold hal_error_to_status
    rw [if_neg hmem.1, if_neg hmem.2.1, if_neg hmem.2.2.1, if_neg hmem.2.2.2]
  · intro hmem
    simp only [List.mem_cons, List.not_mem_nil, or_false, not_or] at hmem
    unfold hal_error_to_status
    rw [if_neg hmem.1, if_neg hmem.2.1, if_neg hmem.2.2.1, if_neg hmem.2.2.2]
    decide

theorem hal_error_to_status_total_witness :
    (7 : Int) ∉ ([HAL_OK, HAL_ERROR, HAL_BUSY, HAL_TIMEOUT] : List Int) ∧
    hal_error_to_status 7 = ERR_GENERIC ∧ hal_error_to_status 7 ≠ NO_ERROR :=
  ⟨by decide, (hal_error_to_status_total 7).2.1 (by decide),
    (hal_error_to_status_total 7).2.2 (by decide)⟩

/-- C9: `qspi_flash_init` returns `NO_ERROR` on every exit path, whatever
statuses the hardware answers — a caller cannot detect initialization
failure from the return value. -/
theorem qspi_flash_init_always_no_error (s : St) :
    (qspi_flash_init s).1 = NO_ERROR := by
  simp only [qspi_flash_init]
  split
  · rfl
  · split
    · rfl
    · split
      · rfl
      · split
        · rfl
        · rfl

theorem log2_uint_subsector : log2_uint N25Q128A_SUBSECTOR_SIZE = 12 := by
  norm_num [log2_uint, N25Q128A_SUBSECTOR_SIZE, Nat.log2]

/-- C8 counterexample: the registered descriptor's erase-geometry
`erase_size` field does not equal the subsector size (the driver stores
`log2_uint(N25Q128A_SUBSECTOR_SIZE) = 12` in it, not `0x1000`). -/
theorem qspi_flash_init_geometry_counterexample :
    ((qspi_flash_init ⟨[], []⟩).2.2).map (fun r => r.geometry.erase_size) ≠
      some N25Q128A_SUBSECTOR_SIZE := by
  have h : log2_uint 4096 = 12 := log2_uint_subsector
  simp only [qspi_flash_init, qspi_reset_memory, qspi_dummy_cycles_cfg,
    qspi_write_enable, qspi_auto_polling_mem_ready, halCall]
  norm_num [HAL_OK, NO_ERROR, h, N25Q128A_SUBSECTOR_SIZE]

/-- C8 amended: at initialization the driver registers a descriptor with
block size = page size, block count = flash size / page size, geometry
start 0 and total size = flash size, erase fill byte `0xFF`, and an
erase geometry whose `erase_shift` *and* `erase_size` fields both hold
`log2_uint(subsector size) = 12` — so the erase unit is the subsector size
only in the sense `2 ^ erase_shift = subsector size`, while the
`erase_size` field holds the shift, not the size. -/
theorem qspi_flash_init_descriptor :
    (qspi_flash_init ⟨[], []⟩).2.2 = some
      { name := "qspi-flash"
        block_size := N25Q128A_PAGE_SIZE
        block_count := N25Q128A_FLASH_SIZE / N25Q128A_PAGE_SIZE
        geometry :=
          { erase_size := log2_uint N25Q128A_SUBSECTOR_SIZE
            erase_shift := log2_uint N25Q128A_SUBSECTOR_SIZE
            start := 0
            size := N25Q128A_FLASH_SIZE }
        erase_byte := 0xff } ∧
    2 ^ log2_uint N25Q128A_SUBSECTOR_SIZE = N25Q128A_SUBSECTOR_SIZE ∧
    log2_uint N25Q128A_SUBSECTOR_SIZE = 12 :=
  ⟨rfl, by rw [log2_uint_subsector]; rfl, log2_uint_subsector⟩

/-! ### Evaluation lemmas for single protocol steps -/

theorem halCall_nil (t : Txn) (tr : List Txn) :
    halCall t ⟨[], tr⟩ = (HAL_OK, ⟨[], tr ++ [t]⟩) := rfl

theorem halCall_cons (v : Int) (env : List Int) (t : Txn) (tr : List Txn) :
    halCall t ⟨v :: env, tr⟩ = (v, ⟨env, tr ++ [t]⟩) := rfl

theorem qspi_write_enable_nil (tr : List Txn) :
    qspi_write_enable ⟨[], tr⟩ =
      (NO_ERROR, ⟨[], tr ++ [Txn.command write_enable_cmd_desc,
        Txn.autoPolling write_enable_poll_cmd_desc write_enable_poll_cfg]⟩) := by
  simp [qspi_write_enable, halCall_nil, HAL_OK]

theorem qspi_write_enable_cons_ok (env : List Int) (tr : List Txn) :
    qspi_write_enable ⟨HAL_OK :: HAL_OK :: env, tr⟩ =
      (NO_ERROR, ⟨env, tr ++ [Txn.command write_enable_cmd_desc,
        Txn.autoPolling write_enable_poll_cmd_desc write_enable_poll_cfg]⟩) := by
  simp [qspi_write_enable, halCall_cons]

theorem qspi_write_enable_fail_head (bad : Int) (env : List Int) (tr : List Txn)
    (h : bad ≠ HAL_OK) :
    qspi_write_enable ⟨bad :: env, tr⟩ =
      (hal_error_to_status bad, ⟨env, tr ++ [Txn.command write_enable_cmd_desc]⟩) := by
  simp [qspi_write_enable, halCall_cons, h]

theorem qspi_auto_polling_mem_ready_nil (tr : List Txn) :
    qspi_auto_polling_mem_ready ⟨[], tr⟩ =
      (NO_ERROR, ⟨[], tr ++ [Txn.autoPollingIT mem_ready_cmd_desc mem_ready_cfg]⟩) := by
  simp [qspi_auto_polling_mem_ready, halCall_nil, HAL_OK]

theorem qspi_auto_polling_mem_ready_cons_ok (env : List Int) (tr : List Txn) :
    qspi_auto_polling_mem_ready ⟨HAL_OK :: env, tr⟩ =
      (NO_ERROR, ⟨env, tr ++ [Txn.autoPollingIT mem_ready_cmd_desc mem_ready_cfg]⟩) := by
  simp [qspi_auto_polling_mem_ready, halCall_cons]

theorem qspi_write_page_nil (addr : Nat) (tr : List Txn)
    (h : addr % N25Q128A_PAGE_SIZE = 0) :
    qspi_write_page addr ⟨[], tr⟩ =
      ((N25Q128A_PAGE_SIZE : Int), ⟨[], tr ++ page_prog_txns addr⟩) := by
  have hA : IS_ALIGNED addr N25Q128A_PAGE_SIZE = true := (is_aligned_page_iff addr).2 h
  simp [qspi_write_page, hA, qspi_write_enable_nil, halCall_nil,
    qspi_auto_polling_mem_ready_nil, page_prog_txns, NO_ERROR, HAL_OK]

theorem qspi_write_page_cons_ok (addr : Nat) (env : List Int) (tr : List Txn)
    (h : addr % N25Q128A_PAGE_SIZE = 0) :
    qspi_write_page addr
        ⟨HAL_OK :: HAL_OK :: HAL_OK :: HAL_OK :: HAL_OK :: env, tr⟩ =
      ((N25Q128A_PAGE_SIZE : Int), ⟨env, tr ++ page_prog_txns addr⟩) := by
  have hA : IS_ALIGNED addr N25Q128A_PAGE_SIZE = true := (is_aligned_page_iff addr).2 h
  simp [qspi_write_page, hA, qspi_write_enable_cons_ok, halCall_cons,
    qspi_auto_polling_mem_ready_cons_ok, page_prog_txns]

theorem qspi_write_page_fail_head (addr : Nat) (bad : Int) (env : List Int)
    (tr : List Txn) (ha : addr % N25Q128A_PAGE_SIZE = 0) (hb : bad ≠ HAL_OK) :
    qspi_write_page addr ⟨bad :: env, tr⟩ =
      (hal_error_to_status bad, ⟨env, tr ++ [Txn.command write_enable_cmd_desc]⟩) := by
  have hA : IS_ALIGNED addr N25Q128A_PAGE_SIZE = true := (is_aligned_page_iff addr).2 ha
  have hne : hal_error_to_status bad ≠ NO_ERROR := by
    have := hal_error_to_status_neg hb
    unfold NO_ERROR
    omega
  simp [qspi_write_page, hA, qspi_write_enable_fail_head _ _ _ hb, hne]

theorem qspi_erase_sector_nil (addr : Nat) (tr : List Txn) :
    qspi_erase_sector addr ⟨[], tr⟩ =
      ((N25Q128A_SECTOR_SIZE : Int),
       ⟨[], tr ++ erase_chunk_txns QSPI_ADDRESS_1_LINE SECTOR_ERASE_CMD addr⟩) := by
  simp [qspi_erase_sector, qspi_erase, qspi_write_enable_nil, halCall_nil,
    qspi_auto_polling_mem_ready_nil, erase_chunk_txns, NO_ERROR, HAL_OK,
    SECTOR_ERASE_CMD, SUBSECTOR_ERASE_CMD, BULK_ERASE_CMD]

theorem qspi_erase_subsector_nil (addr : Nat) (tr : List Txn) :
    qspi_erase_subsector addr ⟨[], tr⟩ =
      ((N25Q128A_SUBSECTOR_SIZE : Int),
       ⟨[], tr ++ erase_chunk_txns QSPI_ADDRESS_1_LINE SUBSECTOR_ERASE_CMD addr⟩) := by
  simp [qspi_erase_subsector, qspi_erase, qspi_write_enable_nil, halCall_nil,
    qspi_auto_polling_mem_ready_nil, erase_chunk_txns, NO_ERROR, HAL_OK,
    SECTOR_ERASE_CMD, SUBSECTOR_ERASE_CMD, BULK_ERASE_CMD]

/-! ### Closed forms of the erase loops when no chunk fails -/

theorem add_mul_succ_65536 (a b : Nat) : a + 65536 + 65536 * b = a + 65536 * (b + 1) := by
  omega

theorem add_mul_succ_4096 (a b : Nat) : a + 4096 + 4096 * b = a + 4096 * (b + 1) := by
  omega

theorem sector_chunks_txns_step (offset : Nat) (tr : List Txn) (B : Nat) :
    (tr ++ erase_chunk_txns QSPI_ADDRESS_1_LINE SECTOR_ERASE_CMD offset) ++
        sector_chunks_txns (offset + 65536) B = tr ++ sector_chunks_txns offset (B + 1) := by
  have hS : (65536 : Nat) = N25Q128A_SECTOR_SIZE := rfl
  rw [hS]
  simp [sector_chunks_txns, List.append_assoc]

theorem subsector_chunks_txns_step (offset : Nat) (tr : List Txn) (B : Nat) :
    (tr ++ erase_chunk_txns QSPI_ADDRESS_1_LINE SUBSECTOR_ERASE_CMD offset) ++
        subsector_chunks_txns (offset + 4096) B = tr ++ subsector_chunks_txns offset (B + 1) := by
  have hS : (4096 : Nat) = N25Q128A_SUBSECTOR_SIZE := rfl
  rw [hS]
  simp [subsector_chunks_txns, List.append_assoc]

theorem erase_sector_loop_nil :
    ∀ (n offset total len : Nat) (tr : List Txn), len - total ≤ n →
      erase_sector_loop offset total len ⟨[], tr⟩ =
        (EraseExit.ok (total + N25Q128A_SECTOR_SIZE * ((len - total) / N25Q128A_SECTOR_SIZE))
            (offset + N25Q128A_SECTOR_SIZE * ((len - total) / N25Q128A_SECTOR_SIZE)),
         ⟨[], tr ++ sector_chunks_txns offset ((len - total) / N25Q128A_SECTOR_SIZE)⟩) := by
  intro n
  induction n with
  | zero =>
    intro offset total len tr h0
    have hS : N25Q128A_SECTOR_SIZE = 65536 := rfl
    have hd : len - total = 0 := by omega
    have hc : ¬ N25Q128A_SECTOR_SIZE ≤ len - total := by rw [hS, hd]; omega
    rw [erase_sector_loop, dif_neg hc, hd]
    simp [sector_chunks_txns]
  | succ n ih =>
    intro offset total len tr h0
    by_cases hc : N25Q128A_SECTOR_SIZE ≤ len - total
    · have hpos : ¬ ((N25Q128A_SECTOR_SIZE : Nat) : Int) < 0 := by
        have := Int.natCast_nonneg N25Q128A_SECTOR_SIZE
        omega
      have htn : ((N25Q128A_SECTOR_SIZE : Nat) : Int).toNat = N25Q128A_SECTOR_SIZE := rfl
      rw [erase_sector_loop, dif_pos hc]
      simp only [qspi_erase_sector_nil, dif_neg hpos, htn]
      simp only [N25Q128A_SECTOR_SIZE] at hc ih ⊢
      rw [ih (offset + 65536) (total + 65536) len
        (tr ++ erase_chunk_txns QSPI_ADDRESS_1_LINE SECTOR_ERASE_CMD offset) (by omega)]
      have hk : (len - total) / 65536 = (len - (total + 65536)) / 65536 + 1 := by omega
      rw [hk, add_mul_succ_65536 total, add_mul_succ_65536 offset, sector_chunks_txns_step]
    · have hk0 : (len - total) / N25Q128A_SECTOR_SIZE = 0 :=
        Nat.div_eq_of_lt (by omega)
      rw [erase_sector_loop, dif_neg hc, hk0]
      simp [sector_chunks_txns]

theorem erase_subsector_loop_nil :
    ∀ (n offset total len : Nat) (tr : List Txn), len - total ≤ n →
      erase_subsector_loop offset total len ⟨[], tr⟩ =
        (EraseExit.ok
            (total + N25Q128A_SUBSECTOR_SIZE *
              ((len - total + (N25Q128A_SUBSECTOR_SIZE - 1)) / N25Q128A_SUBSECTOR_SIZE))
            (offset + N25Q128A_SUBSECTOR_SIZE *
              ((len - total + (N25Q128A_SUBSECTOR_SIZE - 1)) / N25Q128A_SUBSECTOR_SIZE)),
         ⟨[], tr ++ subsector_chunks_txns offset
            ((len - total + (N25Q128A_SUBSECTOR_SIZE - 1)) / N25Q128A_SUBSECTOR_SIZE)⟩) := by
  intro n
  induction n with
  | zero =>
    intro offset total len tr h0
    have hS : N25Q128A_SUBSECTOR_SIZE = 4096 := rfl
    have hc : ¬ total < len := by omega
    have hk0 : (len - total + (N25Q128A_SUBSECTOR_SIZE - 1)) / N25Q128A_SUBSECTOR_SIZE = 0 :=
      Nat.div_eq_of_lt (by rw [hS]; omega)
    rw [erase_subsector_loop, dif_neg hc, hk0]
    simp [subsector_chunks_txns]
  | succ n ih =>
    intro offset total len tr h0
    by_cases hc : total < len
    · have hpos : ¬ ((N25Q128A_SUBSECTOR_SIZE : Nat) : Int) < 0 := by
        have := Int.natCast_nonneg N25Q128A_SUBSECTOR_SIZE
        omega
      have htn : ((N25Q128A_SUBSECTOR_SIZE : Nat) : Int).toNat = N25Q128A_SUBSECTOR_SIZE := rfl
      rw [erase_subsector_loop, dif_pos hc]
      simp only [qspi_erase_subsector_nil, dif_neg hpos, htn]
      simp only [N25Q128A_SUBSECTOR_SIZE] at ih ⊢
      rw [ih (offset + 4096) (total + 4096) len
        (tr ++ erase_chunk_txns QSPI_ADDRESS_1_LINE SUBSECTOR_ERASE_CMD offset) (by omega)]
      have hk : (len - total + 4095) / 4096 = (len - (total + 4096) + 4095) / 4096 + 1 := by
        omega
      rw [hk, add_mul_succ_4096 total, add_mul_succ_4096 offset, subsector_chunks_txns_step]
    · have hS : N25Q128A_SUBSECTOR_SIZE = 4096 := rfl
      have hk0 : (len - total + (N25Q128A_SUBSECTOR_SIZE - 1)) / N25Q128A_SUBSECTOR_SIZE = 0 :=
        Nat.div_eq_of_lt (by rw [hS]; omega)
      rw [erase_subsector_loop, dif_neg hc, hk0]
      simp [subsector_chunks_txns]

theorem bio_trim_range_of_le (offset len : Nat)
    (h : offset + len ≤ N25Q128A_FLASH_SIZE) :
    bio_trim_range N25Q128A_FLASH_SIZE offset len = len := by
  have hF : N25Q128A_FLASH_SIZE = 16777216 := rfl
  unfold bio_trim_range
  rw [hF] at h ⊢
  split
  · omega
  · rw [Nat.min_def]
    split <;> omega

theorem bio_trim_block_range_of_le (block count : Nat)
    (h : block + count ≤ N25Q128A_FLASH_SIZE / N25Q128A_PAGE_SIZE) :
    bio_trim_block_range (N25Q128A_FLASH_SIZE / N25Q128A_PAGE_SIZE) block count = count := by
  have hF : N25Q128A_FLASH_SIZE / N25Q128A_PAGE_SIZE = 65536 := rfl
  unfold bio_trim_block_range
  rw [hF] at h ⊢
  split
  · omega
  · rw [Nat.min_def]
    split <;> omega

/-- Master closed form of `spiflash_bdev_erase` for an in-extent, non-bulk
request with no failing chunk: `len / sector` sector chunks, then
`⌈(len mod sector) / subsector⌉` subsector chunks, and the returned count is
the corresponding byte total. -/
theorem spiflash_bdev_erase_nil (offset len : Nat) (tr : List Txn)
    (h1 : offset + len ≤ N25Q128A_FLASH_SIZE)
    (h2 : ¬(len = N25Q128A_FLASH_SIZE ∧ offset = 0)) :
    spiflash_bdev_erase offset len ⟨[], tr⟩ =
      (((N25Q128A_SECTOR_SIZE * (len / N25Q128A_SECTOR_SIZE) +
          N25Q128A_SUBSECTOR_SIZE *
            ((len % N25Q128A_SECTOR_SIZE + (N25Q128A_SUBSECTOR_SIZE - 1)) /
              N25Q128A_SUBSECTOR_SIZE) : Nat) : Int),
       ⟨[], tr ++ sector_chunks_txns offset (len / N25Q128A_SECTOR_SIZE) ++
          subsector_chunks_txns
            (offset + N25Q128A_SECTOR_SIZE * (len / N25Q128A_SECTOR_SIZE))
            ((len % N25Q128A_SECTOR_SIZE + (N25Q128A_SUBSECTOR_SIZE - 1)) /
              N25Q128A_SUBSECTOR_SIZE)⟩) := by
  have htrim := bio_trim_range_of_le offset len h1
  unfold spiflash_bdev_erase
  rw [htrim]
  by_cases hz : len = 0
  · subst hz
    rw [if_pos rfl]
    have hz1 : (0 % N25Q128A_SECTOR_SIZE + (N25Q128A_SUBSECTOR_SIZE - 1)) /
        N25Q128A_SUBSECTOR_SIZE = 0 := rfl
    have hz2 : (0 : Nat) / N25Q128A_SECTOR_SIZE = 0 := rfl
    rw [hz1, hz2]
    simp [sector_chunks_txns, subsector_chunks_txns]
  · rw [if_neg hz, if_neg h2]
    rw [erase_sector_loop_nil len offset 0 len tr (by omega)]
    dsimp only
    rw [erase_subsector_loop_nil len
      (offset + N25Q128A_SECTOR_SIZE * ((len - 0) / N25Q128A_SECTOR_SIZE))
      (0 + N25Q128A_SECTOR_SIZE * ((len - 0) / N25Q128A_SECTOR_SIZE)) len
      (tr ++ sector_chunks_txns offset ((len - 0) / N25Q128A_SECTOR_SIZE)) (by omega)]
    dsimp only
    simp only [N25Q128A_SECTOR_SIZE, N25Q128A_SUBSECTOR_SIZE] at h1 h2 ⊢
    rw [Nat.sub_zero, Nat.zero_add]
    have e3 : len - 65536 * (len / 65536) = len % 65536 := by omega
    rw [e3, List.append_assoc]

/-! ### Extracting the erase commands from a trace -/

theorem erase_cmds_append (xs ys : List Txn) :
    erase_cmds (xs ++ ys) = erase_cmds xs ++ erase_cmds ys := by
  simp [erase_cmds]

theorem erase_cmds_chunk_sector (offset : Nat) :
    erase_cmds (erase_chunk_txns QSPI_ADDRESS_1_LINE SECTOR_ERASE_CMD offset) =
      [(SECTOR_ERASE_CMD, offset)] := by
  simp [erase_cmds, erase_chunk_txns, erase_cmd_desc, is_erase_op, QSPI_Command.uninit,
    SECTOR_ERASE_CMD, SUBSECTOR_ERASE_CMD, BULK_ERASE_CMD]

theorem erase_cmds_chunk_subsector (offset : Nat) :
    erase_cmds (erase_chunk_txns QSPI_ADDRESS_1_LINE SUBSECTOR_ERASE_CMD offset) =
      [(SUBSECTOR_ERASE_CMD, offset)] := by
  simp [erase_cmds, erase_chunk_txns, erase_cmd_desc, is_erase_op, QSPI_Command.uninit,
    SECTOR_ERASE_CMD, SUBSECTOR_ERASE_CMD, BULK_ERASE_CMD]

theorem erase_cmds_sector_chunks :
    ∀ (k offset : Nat), erase_cmds (sector_chunks_txns offset k) = sector_erase_cmds offset k := by
  intro k
  induction k with
  | zero => intro offset; rfl
  | succ k ih =>
    intro offset
    rw [sector_chunks_txns, erase_cmds_append, erase_cmds_chunk_sector, ih,
      sector_erase_cmds]
    rfl

theorem erase_cmds_subsector_chunks :
    ∀ (k offset : Nat),
      erase_cmds (subsector_chunks_txns offset k) = subsector_erase_cmds offset k := by
  intro k
  induction k with
  | zero => intro offset; rfl
  | succ k ih =>
    intro offset
    rw [subsector_chunks_txns, erase_cmds_append, erase_cmds_chunk_subsector, ih,
      subsector_erase_cmds]
    rfl

/-! ### Claim theorems (part 2) -/

/-- C3: for a page-aligned address with all hardware responses OK,
`write_page` issues, in order, the write-enable command, the
write-enable-latch poll, the quad page-program command (24-bit address,
exactly one page of data), the data transmit, and the write-in-progress
poll, and returns the page size; the descriptor contents match the claimed
fields. -/
theorem qspi_write_page_success_sequence (addr : Nat) (tr : List Txn)
    (h : addr % N25Q128A_PAGE_SIZE = 0) :
    qspi_write_page addr ⟨[], tr⟩ =
      ((N25Q128A_PAGE_SIZE : Int), ⟨[], tr ++ page_prog_txns addr⟩) ∧
    write_enable_cmd_desc.Instruction = some WRITE_ENABLE_CMD ∧
    write_enable_poll_cmd_desc.Instruction = some READ_STATUS_REG_CMD ∧
    write_enable_poll_cfg.Match = N25Q128A_SR_WREN ∧
    write_enable_poll_cfg.Mask = N25Q128A_SR_WREN ∧
    (page_prog_cmd_desc addr).Instruction = some EXT_QUAD_IN_FAST_PROG_CMD ∧
    (page_prog_cmd_desc addr).AddressSize = some QSPI_ADDRESS_24_BITS ∧
    (page_prog_cmd_desc addr).Address = some addr ∧
    (page_prog_cmd_desc addr).NbData = some N25Q128A_PAGE_SIZE ∧
    mem_ready_cmd_desc.Instruction = some READ_STATUS_REG_CMD ∧
    mem_ready_cfg.Mask = N25Q128A_SR_WIP ∧
    mem_ready_cfg.Match = 0 :=
  ⟨qspi_write_page_nil addr tr h, rfl, rfl, rfl, rfl, rfl, rfl, rfl, rfl, rfl, rfl, rfl⟩

theorem qspi_write_page_success_sequence_witness :
    512 % N25Q128A_PAGE_SIZE = 0 ∧
      qspi_write_page 512 ⟨[], []⟩ =
        ((N25Q128A_PAGE_SIZE : Int), ⟨[], [] ++ page_prog_txns 512⟩) :=
  ⟨by decide, (qspi_write_page_success_sequence 512 [] (by decide)).1⟩

/-! ### Write-block loop lemmas -/

theorem page_chunks_txns_step (block : Nat) (tr : List Txn) (count : Nat) :
    (tr ++ page_prog_txns (block * N25Q128A_PAGE_SIZE)) ++ page_chunks_txns (block + 1) count =
      tr ++ page_chunks_txns block (count + 1) := by
  simp [page_chunks_txns, List.append_assoc]

theorem write_block_loop_ok :
    ∀ (count block : Nat) (total : Int) (tr : List Txn),
      write_block_loop block count total ⟨[], tr⟩ =
        (total + ((count * N25Q128A_PAGE_SIZE : Nat) : Int),
         ⟨[], tr ++ page_chunks_txns block count⟩) := by
  intro count
  induction count with
  | zero =>
    intro block total tr
    simp [write_block_loop, page_chunks_txns]
  | succ count ih =>
    intro block total tr
    have ha : (block * N25Q128A_PAGE_SIZE) % N25Q128A_PAGE_SIZE = 0 := Nat.mul_mod_left _ _
    have hp : ¬ ((N25Q128A_PAGE_SIZE : Nat) : Int) < 0 := by
      have := Int.natCast_nonneg N25Q128A_PAGE_SIZE
      omega
    simp only [write_block_loop, qspi_write_page_nil (block * N25Q128A_PAGE_SIZE) tr ha]
    rw [if_neg hp]
    rw [ih (block + 1) (total + ((N25Q128A_PAGE_SIZE : Nat) : Int))
      (tr ++ page_prog_txns (block * N25Q128A_PAGE_SIZE))]
    rw [page_chunks_txns_step]
    rw [show total + ((N25Q128A_PAGE_SIZE : Nat) : Int) + ((count * N25Q128A_PAGE_SIZE : Nat) : Int)
        = total + (((count + 1) * N25Q128A_PAGE_SIZE : Nat) : Int) from by push_cast; ring]

theorem write_block_loop_fail :
    ∀ (k block count : Nat) (total : Int) (tr : List Txn) (bad : Int),
      k < count → bad ≠ HAL_OK →
      write_block_loop block count total ⟨List.replicate (5 * k) HAL_OK ++ [bad], tr⟩ =
        (hal_error_to_status bad,
         ⟨[], tr ++ page_chunks_txns block k ++ [Txn.command write_enable_cmd_desc]⟩) := by
  intro k
  induction k with
  | zero =>
    intro block count total tr bad hk hbad
    obtain ⟨c, rfl⟩ : ∃ c, count = c + 1 := ⟨count - 1, by omega⟩
    have ha : (block * N25Q128A_PAGE_SIZE) % N25Q128A_PAGE_SIZE = 0 := Nat.mul_mod_left _ _
    have hneg : hal_error_to_status bad < 0 := hal_error_to_status_neg hbad
    simp only [Nat.mul_zero, List.replicate, List.nil_append]
    simp only [write_block_loop, qspi_write_page_fail_head (block * N25Q128A_PAGE_SIZE) bad [] tr ha hbad]
    rw [if_pos hneg]
    simp [page_chunks_txns]
  | succ k ih =>
    intro block count total tr bad hk hbad
    obtain ⟨c, rfl⟩ : ∃ c, count = c + 1 := ⟨count - 1, by omega⟩
    have ha : (block * N25Q128A_PAGE_SIZE) % N25Q128A_PAGE_SIZE = 0 := Nat.mul_mod_left _ _
    have hp : ¬ ((N25Q128A_PAGE_SIZE : Nat) : Int) < 0 := by
      have := Int.natCast_nonneg N25Q128A_PAGE_SIZE
      omega
    have hrep : List.replicate (5 * (k + 1)) HAL_OK ++ [bad] =
        HAL_OK :: HAL_OK :: HAL_OK :: HAL_OK :: HAL_OK ::
          (List.replicate (5 * k) HAL_OK ++ [bad]) := by
      rw [show 5 * (k + 1) = 5 + 5 * k from by ring]
      simp [List.replicate_add, List.replicate_succ]
    rw [hrep]
    simp only [write_block_loop,
      qspi_write_page_cons_ok (block * N25Q128A_PAGE_SIZE) (List.replicate (5 * k) HAL_OK ++ [bad]) tr ha]
    rw [if_neg hp]
    rw [ih (block + 1) c (total + ((N25Q128A_PAGE_SIZE : Nat) : Int))
      (tr ++ page_prog_txns (block * N25Q128A_PAGE_SIZE)) bad (by omega) hbad]
    rw [page_chunks_txns_step]

/-- C4: for a trimmed block count, `write_block` writes exactly one page per
block at successive page-aligned addresses; on full success it returns
`count * page_size`; on the first failing page it performs no further page
writes and returns that page's (negative) error, not the accumulated byte
count. -/
theorem spiflash_bdev_write_block_pages :
    (∀ block count tr, block + count ≤ N25Q128A_FLASH_SIZE / N25Q128A_PAGE_SIZE →
      spiflash_bdev_write_block block count ⟨[], tr⟩ =
        (((count * N25Q128A_PAGE_SIZE : Nat) : Int),
         ⟨[], tr ++ page_chunks_txns block count⟩)) ∧
    (∀ block count k bad tr, block + count ≤ N25Q128A_FLASH_SIZE / N25Q128A_PAGE_SIZE →
      k < count → bad ≠ HAL_OK →
      spiflash_bdev_write_block block count ⟨List.replicate (5 * k) HAL_OK ++ [bad], tr⟩ =
        (hal_error_to_status bad,
         ⟨[], tr ++ page_chunks_txns block k ++ [Txn.command write_enable_cmd_desc]⟩) ∧
      hal_error_to_status bad < 0) := by
  constructor
  · intro block count tr hle
    unfold spiflash_bdev_write_block
    rw [bio_trim_block_range_of_le block count hle]
    by_cases hz : count = 0
    · subst hz
      rw [if_pos rfl]
      simp [page_chunks_txns]
    · rw [if_neg hz, write_block_loop_ok count block 0 tr, zero_add]
  · intro block count k bad tr hle hk hbad
    refine ⟨?_, hal_error_to_status_neg hbad⟩
    unfold spiflash_bdev_write_block
    rw [bio_trim_block_range_of_le block count hle]
    rw [if_neg (by omega : ¬ count = 0)]
    exact write_block_loop_fail k block count 0 tr bad hk hbad

theorem spiflash_bdev_write_block_pages_witness :
    ((2 : Nat) + 1 ≤ N25Q128A_FLASH_SIZE / N25Q128A_PAGE_SIZE) ∧
    ((0 : Nat) + 2 ≤ N25Q128A_FLASH_SIZE / N25Q128A_PAGE_SIZE) ∧ (1 : Nat) < 2 ∧
      (1 : Int) ≠ HAL_OK ∧
    spiflash_bdev_write_block 2 1 ⟨[], []⟩ =
      (((1 * N25Q128A_PAGE_SIZE : Nat) : Int), ⟨[], [] ++ page_chunks_txns 2 1⟩) ∧
    (spiflash_bdev_write_block 0 2 ⟨List.replicate (5 * 1) HAL_OK ++ [1], []⟩ =
      (hal_error_to_status 1,
       ⟨[], [] ++ page_chunks_txns 0 1 ++ [Txn.command write_enable_cmd_desc]⟩) ∧
     hal_error_to_status 1 < 0) :=
  ⟨by decide, by decide, by decide, by decide,
   spiflash_bdev_write_block_pages.1 2 1 [] (by decide),
   spiflash_bdev_write_block_pages.2 0 2 1 1 [] (by decide) (by decide) (by decide)⟩

/-- C1: the erase strategy.  A whole-device request performs exactly one
bulk erase; a trimmed non-bulk request performs `len / sector_size` sector
erases at successive sector-spaced offsets followed by
`⌈(len mod sector_size) / subsector_size⌉` subsector erases at successive
subsector-spaced offsets, in that order; in particular
`erase(0, sector_size + subsector_size)` issues exactly one sector erase
followed by exactly one subsector erase. -/
theorem spiflash_bdev_erase_granularity :
    erase_cmds (spiflash_bdev_erase 0 N25Q128A_FLASH_SIZE ⟨[], []⟩).2.trace =
        [(BULK_ERASE_CMD, 0)] ∧
    (∀ offset len, offset + len ≤ N25Q128A_FLASH_SIZE →
      ¬(len = N25Q128A_FLASH_SIZE ∧ offset = 0) →
      erase_cmds (spiflash_bdev_erase offset len ⟨[], []⟩).2.trace =
        sector_erase_cmds offset (len / N25Q128A_SECTOR_SIZE) ++
          subsector_erase_cmds
            (offset + N25Q128A_SECTOR_SIZE * (len / N25Q128A_SECTOR_SIZE))
            ((len % N25Q128A_SECTOR_SIZE + (N25Q128A_SUBSECTOR_SIZE - 1)) /
              N25Q128A_SUBSECTOR_SIZE)) ∧
    erase_cmds
        (spiflash_bdev_erase 0 (N25Q128A_SECTOR_SIZE + N25Q128A_SUBSECTOR_SIZE)
          ⟨[], []⟩).2.trace =
      [(SECTOR_ERASE_CMD, 0), (SUBSECTOR_ERASE_CMD, N25Q128A_SECTOR_SIZE)] := by
  have general : ∀ offset len, offset + len ≤ N25Q128A_FLASH_SIZE →
      ¬(len = N25Q128A_FLASH_SIZE ∧ offset = 0) →
      erase_cmds (spiflash_bdev_erase offset len ⟨[], []⟩).2.trace =
        sector_erase_cmds offset (len / N25Q128A_SECTOR_SIZE) ++
          subsector_erase_cmds
            (offset + N25Q128A_SECTOR_SIZE * (len / N25Q128A_SECTOR_SIZE))
            ((len % N25Q128A_SECTOR_SIZE + (N25Q128A_SUBSECTOR_SIZE - 1)) /
              N25Q128A_SUBSECTOR_SIZE) := by
    intro offset len h1 h2
    rw [spiflash_bdev_erase_nil offset len [] h1 h2]
    dsimp only
    rw [List.nil_append, erase_cmds_append, erase_cmds_sector_chunks,
      erase_cmds_subsector_chunks]
  refine ⟨by decide, general, ?_⟩
  rw [general 0 (N25Q128A_SECTOR_SIZE + N25Q128A_SUBSECTOR_SIZE) (by decide) (by decide)]
  decide

theorem spiflash_bdev_erase_granularity_witness :
    ((4096 : Nat) + 204800 ≤ N25Q128A_FLASH_SIZE) ∧
    ¬((204800 : Nat) = N25Q128A_FLASH_SIZE ∧ (4096 : Nat) = 0) ∧
    erase_cmds (spiflash_bdev_erase 4096 204800 ⟨[], []⟩).2.trace =
      sector_erase_cmds 4096 (204800 / N25Q128A_SECTOR_SIZE) ++
        subsector_erase_cmds
          (4096 + N25Q128A_SECTOR_SIZE * (204800 / N25Q128A_SECTOR_SIZE))
          ((204800 % N25Q128A_SECTOR_SIZE + (N25Q128A_SUBSECTOR_SIZE - 1)) /
            N25Q128A_SUBSECTOR_SIZE) :=
  ⟨by decide, by decide,
   spiflash_bdev_erase_granularity.2.1 4096 204800 (by decide) (by decide)⟩

/-- C10: for a trimmed non-bulk erase with no failing chunk, the returned
byte count is a sum of whole sector and subsector sizes, is at least the
requested length, and exceeds it by strictly less than one subsector. -/
theorem spiflash_bdev_erase_rounds_up (offset len : Nat)
    (h1 : offset + len ≤ N25Q128A_FLASH_SIZE)
    (h2 : ¬(len = N25Q128A_FLASH_SIZE ∧ offset = 0)) :
    (∃ a b : Nat, (spiflash_bdev_erase offset len ⟨[], []⟩).1 =
        ((N25Q128A_SECTOR_SIZE * a + N25Q128A_SUBSECTOR_SIZE * b : Nat) : Int)) ∧
    (len : Int) ≤ (spiflash_bdev_erase offset len ⟨[], []⟩).1 ∧
    (spiflash_bdev_erase offset len ⟨[], []⟩).1 <
      (len : Int) + ((N25Q128A_SUBSECTOR_SIZE : Nat) : Int) := by
  rw [spiflash_bdev_erase_nil offset len [] h1 h2]
  dsimp only
  refine ⟨⟨len / N25Q128A_SECTOR_SIZE,
    (len % N25Q128A_SECTOR_SIZE + (N25Q128A_SUBSECTOR_SIZE - 1)) / N25Q128A_SUBSECTOR_SIZE,
    rfl⟩, ?_, ?_⟩
  · simp only [N25Q128A_SECTOR_SIZE, N25Q128A_SUBSECTOR_SIZE]
    omega
  · simp only [N25Q128A_SECTOR_SIZE, N25Q128A_SUBSECTOR_SIZE]
    omega

theorem spiflash_bdev_erase_rounds_up_witness :
    ((0 : Nat) + 5000 ≤ N25Q128A_FLASH_SIZE) ∧
    ¬((5000 : Nat) = N25Q128A_FLASH_SIZE ∧ (0 : Nat) = 0) ∧
    ((∃ a b : Nat, (spiflash_bdev_erase 0 5000 ⟨[], []⟩).1 =
        ((N25Q128A_SECTOR_SIZE * a + N25Q128A_SUBSECTOR_SIZE * b : Nat) : Int)) ∧
     (5000 : Int) ≤ (spiflash_bdev_erase 0 5000 ⟨[], []⟩).1 ∧
     (spiflash_bdev_erase 0 5000 ⟨[], []⟩).1 <
       (5000 : Int) + ((N25Q128A_SUBSECTOR_SIZE : Nat) : Int)) :=
  ⟨by decide, by decide, spiflash_bdev_erase_rounds_up 0 5000 (by decide) (by decide)⟩

end LkQspi
